import Mathlib

/-!
Verification of the face-anonymization pipeline (backend/services/pcd_main.py,
backend/services/audio_recorder.py, backend/app.py, backend/mainDNN.py).

The Python code is shallowly embedded: pure helpers become Lean functions,
pixel data becomes total functions from coordinates to rational channel
values, the stateful main loop becomes a step function on an explicit state
record, and every external effect (OpenCV primitives, PortAudio devices, the
HTTP stack) is supplied as an explicit parameter or environment record so the
control flow of the repository's own code is what the theorems are about.
-/

/-- Pixel value of a 3-channel (BGR) image; each channel is modelled as an
exact rational. -/
def Pix : Type := Fin 3 → ℚ

/-- BGR colour (0,0,255) used by `cv2.putText` for the no-face marker. -/
def redBGR : Pix := fun ch => if ch.val = 2 then 255 else 0

/-- BGR colour (0,255,0) used by `cv2.putText` for the status line. -/
def greenBGR : Pix := fun ch => if ch.val = 1 then 255 else 0

/-- An image: height, width, and a total pixel map (reads outside the
rectangle are unconstrained, matching how slices are always taken in-bounds
by the code paths we verify). -/
structure Image where
  h : Nat
  w : Nat
  pix : Nat → Nat → Pix

/-- Slice `img[y1:y2, x1:x2]` of a frame (numpy view), for resolved
non-negative bounds. -/
def subImage (img : Image) (x1 y1 x2 y2 : Nat) : Image :=
  ⟨y2 - y1, x2 - x1, fun r c => img.pix (y1 + r) (x1 + c)⟩

/-- Assignment `img[y1:, x1:] = sub` writing a sub-image back into a frame
at offset (x1, y1), as done by `img[startY:endY, startX:endX] = blurred`. -/
def writeSub (img : Image) (x1 y1 : Nat) (sub : Image) : Image :=
  ⟨img.h, img.w, fun r c =>
    if y1 ≤ r ∧ r < y1 + sub.h ∧ x1 ≤ c ∧ c < x1 + sub.w then
      sub.pix (r - y1) (c - x1)
    else img.pix r c⟩

/-- Resolution of one python slice index `i` against an axis of length
`len`: negative indices count from the end, and the result is clamped into
`[0, len]`. -/
def pyIdx (len : Nat) (i : Int) : Nat :=
  (max 0 (min (len : Int) (if i < 0 then (len : Int) + i else i))).toNat

/-- The fixed detector confidence threshold (`confidence_threshold = 0.5`). -/
def confidence_threshold : ℚ := 1 / 2

/-- One detector output: raw box corners (before the main loop clamps them)
and a confidence score, matching `detections[0,0,i]` after scaling by the
frame size and `astype("int")`. -/
structure Detection where
  x1 : Int
  y1 : Int
  x2 : Int
  y2 : Int
  conf : ℚ

/-- Helper `_oddize` from pcd_main.py / mainDNN.py: round up to an odd
integer that is at least 3. -/
def _oddize (n : Int) : Int :=
  let m := max 3 n
  if m % 2 = 1 then m else m + 1

/-- Result of `_oddize` is always at least 3. -/
theorem _oddize_ge_three (n : Int) : 3 ≤ _oddize n := by
  unfold _oddize
  dsimp only
  split <;> omega

/-- Result of `_oddize` is always odd. -/
theorem _oddize_odd (n : Int) : Odd (_oddize n) := by
  unfold _oddize
  dsimp only
  rw [Int.odd_iff]
  split <;> omega

/-- Gaussian blur helper from pcd_main.py (lines 183-203).  The OpenCV
primitive `cv2.GaussianBlur` is abstracted as the parameter `gblur`
(kernel-x, kernel-y, sigma, image); everything else — the empty-image guard,
the kernel-factor defaulting, the kernel computed from the smaller ROI
dimension, the clamp against the image dimensions and the dead `k <= 1`
guard — is translated directly. -/
def apply_gaussian_blur (gblur : Int → Int → ℚ → Image → Image)
    (image : Image) (kernel_factor : Int) : Image :=
  if image.h * image.w = 0 then image
  else
    let kf : Int := max 1 kernel_factor
    let m : Nat := min image.h image.w
    let k0 : Int := _oddize (max 3 ((m : Int).fdiv kf))
    let k : Int := min k0 (max 3 (if m % 2 = 1 then (m : Int) else (m : Int) - 1))
    if k ≤ 1 then image else gblur k k 0 image

/-- Kernel size that `apply_gaussian_blur` actually uses on an ROI of
height `h` and width `w` with kernel factor 3 (the main loop's `k_factor`).
This is the amended-claim formula: `_oddize` of a third of the smaller ROI
dimension, clamped to the largest valid odd kernel for that ROI. -/
def kernelOfRoi (h w : Nat) : Int :=
  min (_oddize (max 3 (((min h w : Nat) : Int).fdiv 3)))
    (max 3 (if min h w % 2 = 1 then ((min h w : Nat) : Int) else ((min h w : Nat) : Int) - 1))

theorem kernelOfRoi_ge_three (h w : Nat) : 3 ≤ kernelOfRoi h w := by
  unfold kernelOfRoi
  have := _oddize_ge_three (max 3 (((min h w : Nat) : Int).fdiv 3))
  omega

/-- Index clamp used when sampling a source image during resizing:
clamp an integer coordinate into `[0, n-1]`. -/
def clampI (n : Nat) (i : Int) : Nat := (max 0 (min ((n : Int) - 1) i)).toNat

/-- Model of `cv2.resize(..., interpolation=cv2.INTER_LINEAR)`: bilinear
interpolation with half-pixel-centre source coordinates and edge clamping,
in exact rational arithmetic. -/
def resizeLinear (src : Image) (dstW dstH : Nat) : Image :=
  ⟨dstH, dstW, fun r c =>
    let fy : ℚ := (((r : ℚ) + 1 / 2) * src.h) / dstH - 1 / 2
    let fx : ℚ := (((c : ℚ) + 1 / 2) * src.w) / dstW - 1 / 2
    let y0 : Int := ⌊fy⌋
    let x0 : Int := ⌊fx⌋
    let dy : ℚ := fy - y0
    let dx : ℚ := fx - x0
    fun ch =>
      (1 - dy) * ((1 - dx) * src.pix (clampI src.h y0) (clampI src.w x0) ch
          + dx * src.pix (clampI src.h y0) (clampI src.w (x0 + 1)) ch)
      + dy * ((1 - dx) * src.pix (clampI src.h (y0 + 1)) (clampI src.w x0) ch
          + dx * src.pix (clampI src.h (y0 + 1)) (clampI src.w (x0 + 1)) ch)⟩

/-- Model of `cv2.resize(..., interpolation=cv2.INTER_NEAREST)`: each output
pixel samples the source at the floor-scaled coordinate. -/
def resizeNearest (src : Image) (dstW dstH : Nat) : Image :=
  ⟨dstH, dstW, fun r c =>
    src.pix (min (src.h - 1) (r * src.h / dstH)) (min (src.w - 1) (c * src.w / dstW))⟩

/-- Mosaic blur from pcd_main.py (lines 205-213): guard the block size,
downscale linearly, upscale with nearest-neighbour. -/
def apply_mosaic_blur (image : Image) (block_size : Int) : Image :=
  let bs : Int := max 1 block_size
  let small_h : Nat := max 1 ((image.h : Int).fdiv bs).toNat
  let small_w : Nat := max 1 ((image.w : Int).fdiv bs).toNat
  let temp := resizeLinear image small_w small_h
  resizeNearest temp image.w image.h

/-- C7: for every integer box width `w`, `_oddize (max 3 (w // 3))` is an
odd integer and is at least 3 (Python `//` is floor division, `Int.fdiv`). -/
theorem oddize_kernel_invariant (w : Int) :
    Odd (_oddize (max 3 (w.fdiv 3))) ∧ 3 ≤ _oddize (max 3 (w.fdiv 3)) :=
  ⟨_oddize_odd _, _oddize_ge_three _⟩

/-- C8: on a region of uniform colour, `apply_mosaic_blur` is the identity
for every block size: the bilinear downscale produces only convex
combinations of the constant value, and the nearest-neighbour upscale only
samples it. -/
theorem mosaic_uniform_identity (img : Image) (v : Pix) (block_size : Int)
    (hu : ∀ r c, img.pix r c = v) :
    apply_mosaic_blur img block_size = img := by
  obtain ⟨h, w, pix⟩ := img
  have hu' : ∀ r c, pix r c = v := hu
  simp only [apply_mosaic_blur, resizeNearest, resizeLinear]
  congr 1
  funext r c
  simp only [hu']
  funext ch
  ring

/-- Witness for C8 at a concrete uniform 4×6 image with value 7 and block
size 10. -/
theorem mosaic_uniform_identity_witness :
    apply_mosaic_blur ⟨4, 6, fun _ _ _ => (7 : ℚ)⟩ 10 = ⟨4, 6, fun _ _ _ => (7 : ℚ)⟩ :=
  mosaic_uniform_identity ⟨4, 6, fun _ _ _ => (7 : ℚ)⟩ (fun _ => (7 : ℚ)) 10
    (fun _ _ => rfl)

/-- Blur mode selected by the operator (`blur_type` in pcd_main.py); the
string value 'none' (or any unrecognized value) is the third constructor. -/
inductive BlurType
  | gaussian
  | mosaic
  | none
deriving DecidableEq

/-- Blur dispatch inside the main loop's per-detection branch
(pcd_main.py lines 305-318).  In the `gaussian` arm the source also
computes `k = _oddize(max(3, box_w // k_factor))` but never uses it: the
call passes `kernel_factor=k_factor` (= 3), so the kernel is recomputed
inside `apply_gaussian_blur` from the ROI dimensions. -/
def blurOf (gblur : Int → Int → ℚ → Image → Image) (bt : BlurType)
    (roi : Image) (box_w : Int) : Image :=
  match bt with
  | BlurType.gaussian => apply_gaussian_blur gblur roi 3
  | BlurType.mosaic => apply_mosaic_blur roi (max 3 (box_w.fdiv 15))
  | BlurType.none => roi

/-- Per-detection body after the box has been clamped and resolved to slice
bounds: ROI validity check (`face_roi.size > 0`), blur-enabled check, blur,
and write-back (pcd_main.py lines 299-321). -/
def faceStep (gblur : Int → Int → ℚ → Image → Image) (bt : BlurType)
    (blur_enabled : Bool) (img : Image) (sx sy ex ey : Nat) (box_w : Int) : Image :=
  if 0 < (ey - sy) * (ex - sx) then
    if blur_enabled then
      writeSub img sx sy (blurOf gblur bt (subImage img sx sy ex ey) box_w)
    else img
  else img

/-- Processing of one above-threshold detection (pcd_main.py lines 289-321):
clamp the box corners with `max 0` / `min w`, resolve the numpy slice
indices, and run the blur step; `box_w` is `endX - startX` on the clamped
integer corners, as in the source. -/
def processDet (gblur : Int → Int → ℚ → Image → Image) (bt : BlurType)
    (blur_enabled : Bool) (img : Image) (d : Detection) : Image :=
  faceStep gblur bt blur_enabled img
    (pyIdx img.w (max 0 d.x1)) (pyIdx img.h (max 0 d.y1))
    (pyIdx img.w (min (img.w : Int) d.x2)) (pyIdx img.h (min (img.h : Int) d.y2))
    (min (img.w : Int) d.x2 - max 0 d.x1)

/-- Detection loop of one main-loop iteration (pcd_main.py lines 282-321):
fold over the detections, processing the ones above the confidence
threshold and recording whether any face was found. -/
def detLoop (gblur : Int → Int → ℚ → Image → Image) (bt : BlurType)
    (blur_enabled : Bool) (dets : List Detection) (img : Image) : Image × Bool :=
  dets.foldl
    (fun s d =>
      if confidence_threshold < d.conf then (processDet gblur bt blur_enabled s.1 d, true)
      else s)
    (img, false)

/-- Slice resolution is the identity on an in-range non-negative lower
bound written as `max 0 n`. -/
theorem pyIdx_max_coe (len n : Nat) (h : n ≤ len) :
    pyIdx len (max 0 (n : Int)) = n := by
  unfold pyIdx
  rw [if_neg (by omega)]
  omega

/-- Slice resolution is the identity on an in-range upper bound written as
`min len n`. -/
theorem pyIdx_min_coe (len n : Nat) (h : n ≤ len) :
    pyIdx len (min (len : Int) (n : Int)) = n := by
  unfold pyIdx
  rw [if_neg (by omega)]
  omega

/-- With kernel factor 3 and a non-empty image, `apply_gaussian_blur`
reduces to one call of the blur primitive with the square `kernelOfRoi`
kernel and zero sigma: the empty-image guard and the `k <= 1` guard are
both dead on this path. -/
theorem apply_gaussian_blur_eq (gblur : Int → Int → ℚ → Image → Image)
    (img : Image) (hh : 0 < img.h) (hw : 0 < img.w) :
    apply_gaussian_blur gblur img 3
      = gblur (kernelOfRoi img.h img.w) (kernelOfRoi img.h img.w) 0 img := by
  have hk := kernelOfRoi_ge_three img.h img.w
  have h13 : (max (1 : Int) 3) = 3 := by decide
  simp only [apply_gaussian_blur, kernelOfRoi, h13] at *
  rw [if_neg (Nat.pos_iff_ne_zero.mp (Nat.mul_pos hh hw)), if_neg (by omega)]

/-- When the clamped box is at least as tall as wide, the kernel actually
used coincides with the spec's `oddize(max(3, box_width / 3))` formula. -/
theorem kernelOfRoi_eq_width (h w : Nat) (hw : 0 < w) (hwh : w ≤ h) :
    kernelOfRoi h w = _oddize (max 3 ((w : Int).fdiv 3)) := by
  have hmin : min h w = w := Nat.min_eq_right hwh
  have hfd : ((w : Int)).fdiv 3 = (w : Int) / 3 := Int.fdiv_eq_ediv _ (by omega)
  unfold kernelOfRoi
  rw [hmin, hfd]
  apply min_eq_left
  unfold _oddize
  dsimp only
  split <;> split <;> omega

/-- Kernel actually used is always odd. -/
theorem kernelOfRoi_odd (h w : Nat) : Odd (kernelOfRoi h w) := by
  unfold kernelOfRoi
  rcases le_total
      (_oddize (max 3 (((min h w : Nat) : Int).fdiv 3)))
      (max 3 (if min h w % 2 = 1 then ((min h w : Nat) : Int) else ((min h w : Nat) : Int) - 1))
    with hle | hle
  · rw [min_eq_left hle]; exact _oddize_odd _
  · rw [min_eq_right hle, Int.odd_iff]
    rcases Nat.even_or_odd (min h w) with he | ho
    · have h0 : min h w % 2 = 0 := Nat.even_iff.mp he
      rw [if_neg (by omega : ¬ min h w % 2 = 1)]
      omega
    · rw [if_pos (Nat.odd_iff.mp ho)]
      have : min h w % 2 = 1 := Nat.odd_iff.mp ho
      omega

/-- C1 (amended): one above-threshold detection whose clamped box has
non-zero area, in gaussian mode, gets a square zero-sigma blur whose kernel
is `kernelOfRoi` of the clamped box dimensions — `_oddize` of a third of
the SMALLER box dimension (clamped to the box) — which coincides with the
spec's `oddize(max(3, box_width / 3))` exactly when the box is at least as
tall as it is wide. -/
theorem gaussian_branch_kernel (gblur : Int → Int → ℚ → Image → Image)
    (img : Image) (conf : ℚ) (sx sy ex ey : Nat)
    (hconf : confidence_threshold < conf)
    (hx : sx < ex) (hy : sy < ey) (hxw : ex ≤ img.w) (hyh : ey ≤ img.h) :
    detLoop gblur BlurType.gaussian true
        [⟨(sx : Int), (sy : Int), (ex : Int), (ey : Int), conf⟩] img
      = (writeSub img sx sy
          (gblur (kernelOfRoi (ey - sy) (ex - sx)) (kernelOfRoi (ey - sy) (ex - sx)) 0
            (subImage img sx sy ex ey)), true)
    ∧ Odd (kernelOfRoi (ey - sy) (ex - sx))
    ∧ 3 ≤ kernelOfRoi (ey - sy) (ex - sx)
    ∧ (ex - sx ≤ ey - sy →
        kernelOfRoi (ey - sy) (ex - sx) = _oddize (max 3 (((ex - sx : Nat) : Int).fdiv 3))) := by
  refine ⟨?_, kernelOfRoi_odd _ _, kernelOfRoi_ge_three _ _,
    fun hle => kernelOfRoi_eq_width _ _ (by omega) hle⟩
  simp only [detLoop, List.foldl_cons, List.foldl_nil, if_pos hconf]
  simp only [processDet]
  rw [pyIdx_max_coe img.w sx (by omega), pyIdx_max_coe img.h sy (by omega),
    pyIdx_min_coe img.w ex hxw, pyIdx_min_coe img.h ey hyh]
  simp only [faceStep, blurOf]
  rw [if_pos (Nat.mul_pos (by omega) (by omega) : 0 < (ey - sy) * (ex - sx))]
  simp only [if_true]
  rw [apply_gaussian_blur_eq gblur (subImage img sx sy ex ey) (by dsimp [subImage]; omega)
    (by dsimp [subImage]; omega)]
  rfl

/-- Concrete blur primitive that records the x-kernel size it was called
with in every output pixel; used to observe which kernel the pipeline asks
for. -/
def gblurProbe : Int → Int → ℚ → Image → Image :=
  fun kx _ _ image => ⟨image.h, image.w, fun _ _ _ => (kx : ℚ)⟩

/-- A 20×20 all-zero frame. -/
def imgZero : Image := ⟨20, 20, fun _ _ _ => 0⟩

/-- Detection with confidence 0.9 whose clamped box is 12 wide and 6 tall. -/
def detWide : Detection := ⟨2, 2, 14, 8, 9 / 10⟩

/-- C1 counterexample: on a 12-wide, 6-tall box the claimed kernel is
`oddize(max(3, 12 / 3)) = 5`, but the pipeline calls the blur primitive with
kernel 3 (derived from the smaller box dimension 6): the probe records 3
inside the box region where the claim's formula would record 5. -/
theorem gaussian_kernel_claim_false :
    (detLoop gblurProbe BlurType.gaussian true [detWide] imgZero).1.pix 2 2 0 = 3
    ∧ _oddize (max 3 ((14 - 2 : Int).fdiv 3)) = 5
    ∧ (writeSub imgZero 2 2
        (gblurProbe (_oddize (max 3 ((14 - 2 : Int).fdiv 3)))
          (_oddize (max 3 ((14 - 2 : Int).fdiv 3))) 0
          (subImage imgZero 2 2 14 8))).pix 2 2 0 = 5
    ∧ (3 : ℚ) ≠ 5 := by
  have hc : confidence_threshold < (9 : ℚ) / 10 := by norm_num [confidence_threshold]
  refine ⟨?_, by decide, ?_, by norm_num⟩
  · simp only [detLoop, List.foldl_cons, List.foldl_nil, detWide]
    rw [if_pos hc]
    show ((3 : Int) : ℚ) = 3
    norm_num
  · show ((5 : Int) : ℚ) = 5
    norm_num

/-- Witness for C1 at the concrete probe, frame and detection above. -/
theorem gaussian_branch_kernel_witness :
    (detLoop gblurProbe BlurType.gaussian true [⟨(2 : Int), 2, 14, 8, 9 / 10⟩] imgZero
      = (writeSub imgZero 2 2
          (gblurProbe (kernelOfRoi (8 - 2) (14 - 2)) (kernelOfRoi (8 - 2) (14 - 2)) 0
            (subImage imgZero 2 2 14 8)), true))
    ∧ Odd (kernelOfRoi (8 - 2) (14 - 2))
    ∧ 3 ≤ kernelOfRoi (8 - 2) (14 - 2)
    ∧ (14 - 2 ≤ 8 - 2 →
        kernelOfRoi (8 - 2) (14 - 2) = _oddize (max 3 (((14 - 2 : Nat) : Int).fdiv 3))) :=
  gaussian_branch_kernel gblurProbe imgZero (9 / 10) 2 2 14 8
    (by norm_num [confidence_threshold]) (by decide) (by decide) (by decide) (by decide)

/-- One `cv2.putText` call: the text, origin, font face/scale, colour and
thickness passed by the source. -/
structure TextCall where
  text : String
  org : Int × Int
  fontFace : Nat
  fontScale : ℚ
  color : Pix
  thickness : Nat

/-- Model of `cv2.putText` (default LINE_8, no anti-aliasing): the glyph
rasterizer is abstracted as a footprint predicate `render`; covered pixels
are painted with the call's solid colour, all others are untouched. -/
def putText (render : TextCall → Nat → Nat → Bool) (call : TextCall) (img : Image) : Image :=
  ⟨img.h, img.w, fun r c => if render call r c then call.color else img.pix r c⟩

/-- OpenCV font-face constant used for the no-face marker. -/
def FONT_HERSHEY_COMPLEX : Nat := 3

/-- OpenCV font-face constant used for the status line. -/
def FONT_HERSHEY_SIMPLEX : Nat := 0

/-- The marker drawn when no face was found (pcd_main.py line 328). -/
def noFaceCall : TextCall :=
  ⟨"No Face Found!", (20, 50), FONT_HERSHEY_COMPLEX, 1, redBGR, 2⟩

/-- Value of `blur_status` (pcd_main.py line 335). -/
def blurStatus (bt : BlurType) (blur_enabled : Bool) : String :=
  if blur_enabled = false then "OFF"
  else
    match bt with
    | BlurType.gaussian => "GAUSSIAN"
    | BlurType.mosaic => "MOSAIC"
    | BlurType.none => "NONE"

/-- Value of `recording_status` (pcd_main.py line 336). -/
def recordingStatus (recording : Bool) : String :=
  if recording then "REC" else "OFF"

/-- Value of `mode_text` (pcd_main.py line 337). -/
def modeText (bt : BlurType) (blur_enabled recording : Bool) : String :=
  "Blur: " ++ blurStatus bt blur_enabled ++ " | Rec: " ++ recordingStatus recording
    ++ " | [G]aussian [M]osaic [B]lur ON/OFF [R]ec ON/OFF [Q]uit"

/-- The status-line overlay drawn on every frame (pcd_main.py line 338). -/
def statusCall (bt : BlurType) (blur_enabled recording : Bool) (imgH : Nat) : TextCall :=
  ⟨modeText bt blur_enabled recording, (10, (imgH : Int) - 10), FONT_HERSHEY_SIMPLEX,
    1 / 2, greenBGR, 1⟩

/-- Image part of one main-loop iteration after the frame has been read and
mirrored (pcd_main.py lines 279-338): detection loop, no-face marker when
nothing cleared the threshold, then the always-drawn status line. -/
def frameBody (gblur : Int → Int → ℚ → Image → Image)
    (render : TextCall → Nat → Nat → Bool) (bt : BlurType)
    (blur_enabled recording : Bool) (dets : List Detection) (img : Image) : Image :=
  let res := detLoop gblur bt blur_enabled dets img
  let img2 := if res.2 then res.1 else putText render noFaceCall res.1
  putText render (statusCall bt blur_enabled recording img2.h) img2

/-- Detection loop is the identity (and finds no face) when every detection
is at or below the confidence threshold. -/
theorem detLoop_weak (gblur : Int → Int → ℚ → Image → Image) (bt : BlurType)
    (blur_enabled : Bool) (dets : List Detection) (img : Image)
    (hweak : ∀ d ∈ dets, ¬ confidence_threshold < d.conf) :
    detLoop gblur bt blur_enabled dets img = (img, false) := by
  induction dets with
  | nil => rfl
  | cons d l ih =>
    have hd : ¬ confidence_threshold < d.conf := hweak d (by simp)
    have hl : ∀ x ∈ l, ¬ confidence_threshold < x.conf :=
      fun x hx => hweak x (by simp [hx])
    simp only [detLoop, List.foldl_cons, if_neg hd] at *
    exact ih hl

/-- C5 (amended): on a frame with no above-threshold detection, pixels
covered by the no-face marker (and not overdrawn by the status line) show
the marker colour, and pixels outside BOTH the marker and the always-drawn
status-line overlay are exactly the input pixels. -/
theorem no_face_frame (gblur : Int → Int → ℚ → Image → Image)
    (render : TextCall → Nat → Nat → Bool) (bt : BlurType)
    (blur_enabled recording : Bool) (dets : List Detection) (img : Image)
    (hweak : ∀ d ∈ dets, ¬ confidence_threshold < d.conf) :
    (∀ r c, render noFaceCall r c = true →
      render (statusCall bt blur_enabled recording img.h) r c = false →
      (frameBody gblur render bt blur_enabled recording dets img).pix r c = redBGR)
    ∧ (∀ r c, render noFaceCall r c = false →
      render (statusCall bt blur_enabled recording img.h) r c = false →
      (frameBody gblur render bt blur_enabled recording dets img).pix r c = img.pix r c) := by
  have hdl := detLoop_weak gblur bt blur_enabled dets img hweak
  constructor
  · intro r c hin hout
    have hcol : noFaceCall.color = redBGR := rfl
    simp [frameBody, hdl, putText, hin, hout, hcol]
  · intro r c hin hout
    simp [frameBody, hdl, putText, hin, hout]

/-- Concrete glyph footprint: the no-face marker (HERSHEY_COMPLEX call)
covers exactly pixel (50, 20); any other call covers exactly pixel
(90, 10).  A stand-in within the renderer freedom of the model for the fact
that cv2 paints some pixel for each non-empty text. -/
def renderStub : TextCall → Nat → Nat → Bool :=
  fun call r c =>
    if call.fontFace = FONT_HERSHEY_COMPLEX then r == 50 && c == 20
    else r == 90 && c == 10

/-- A 100×100 all-zero frame. -/
def img100 : Image := ⟨100, 100, fun _ _ _ => 0⟩

/-- C5 counterexample: with zero detections, pixel (90, 10) lies outside
the no-face marker footprint yet differs from the input (the always-drawn
status line paints it green), so the frame is not `otherwise unmodified`. -/
theorem no_face_claim_false :
    renderStub noFaceCall 90 10 = false
    ∧ (frameBody gblurProbe renderStub BlurType.gaussian true false [] img100).pix 90 10 1 = 255
    ∧ img100.pix 90 10 1 = 0
    ∧ ((255 : ℚ) ≠ 0) :=
  ⟨rfl, rfl, rfl, by norm_num⟩

/-- Witness for C5: the marker pixel (50, 20) shows the marker colour and
the untouched pixel (0, 0) equals the input. -/
theorem no_face_frame_witness :
    (frameBody gblurProbe renderStub BlurType.gaussian true false [] img100).pix 50 20 = redBGR
    ∧ (frameBody gblurProbe renderStub BlurType.gaussian true false [] img100).pix 0 0
        = img100.pix 0 0 :=
  ⟨(no_face_frame gblurProbe renderStub BlurType.gaussian true false [] img100
      (by simp)).1 50 20 rfl rfl,
   (no_face_frame gblurProbe renderStub BlurType.gaussian true false [] img100
      (by simp)).2 0 0 rfl rfl⟩

/-- Handle of a `cv2.VideoWriter`: its target filename and whether it
opened successfully. -/
structure VideoWriter where
  filename : String
  isOpened : Bool
deriving DecidableEq

/-- Module-level recording resource of pcd_main.py: the global
`video_writer` (None when no writer is live). -/
structure RecState where
  video_writer : Option VideoWriter
deriving DecidableEq

/-- Function `start_recording` (pcd_main.py lines 215-228): build a
timestamped filename, construct a writer (assigned to the global
unconditionally), keep it and return True if it opened, otherwise reset the
global to None and return False.  The wall clock and the writer-open
outcome are inputs `ts` and `opens`. -/
def start_recording (ts : String) (opens : Bool) (_s : RecState) : Bool × RecState :=
  let filename := "recordings/recording_" ++ ts ++ ".mp4"
  let vw : VideoWriter := ⟨filename, opens⟩
  let s1 : RecState := ⟨some vw⟩
  if vw.isOpened then (true, s1) else (false, ⟨Option.none⟩)

/-- Function `stop_recording` (pcd_main.py lines 230-236): release and
clear the writer when one is live, do nothing otherwise; the Python
function always returns None (first component). -/
def stop_recording (s : RecState) : Option String × RecState :=
  match s.video_writer with
  | some _ => (Option.none, ⟨Option.none⟩)
  | Option.none => (Option.none, s)

/-- Keyboard commands recognized by the main loop. -/
inductive Key
  | q
  | g
  | m
  | b
  | r
  | other
deriving DecidableEq

/-- Mutable module-level state touched by one main-loop iteration. -/
structure LoopState where
  blur_type : BlurType
  blur_enabled : Bool
  recording : Bool
  recState : RecState
  display_enabled : Bool
deriving DecidableEq

/-- Initial module state (pcd_main.py lines 119-124): gaussian blur
enabled, not recording, no writer. -/
def initState (display : Bool) : LoopState :=
  ⟨BlurType.gaussian, true, false, ⟨Option.none⟩, display⟩

/-- Environment of one loop iteration: whether `cv2.imshow` succeeded, the
key reported by `waitKey`, whether a new `cv2.VideoWriter` would open, and
the current timestamp. -/
structure FrameEvent where
  displayOk : Bool
  key : Key
  startOk : Bool
  ts : String

/-- Keyboard handling (pcd_main.py lines 358-380): toggling `recording` on
attempts `start_recording` and reverts the flag on failure; toggling it off
calls `stop_recording`. -/
def handleKey (e : FrameEvent) (s : LoopState) : LoopState :=
  match e.key with
  | Key.q => s
  | Key.g => {s with blur_type := BlurType.gaussian, blur_enabled := true}
  | Key.m => {s with blur_type := BlurType.mosaic, blur_enabled := true}
  | Key.b => {s with blur_enabled := !s.blur_enabled}
  | Key.r =>
    if s.recording = false then
      match start_recording e.ts e.startOk s.recState with
      | (ok, rs) =>
        if ok then {s with recording := true, recState := rs}
        else {s with recording := false, recState := rs}
    else {s with recording := false, recState := (stop_recording s.recState).2}
  | Key.other => s

/-- State effect of one main-loop iteration (pcd_main.py lines 342-391): in
display mode an imshow failure downgrades `display_enabled` and the
keyboard is handled; in headless mode no shared state is mutated. -/
def mainStep (s : LoopState) (e : FrameEvent) : LoopState :=
  if s.display_enabled then
    handleKey e (if e.displayOk then s else {s with display_enabled := false})
  else s

/-- States the main loop can be in when it reaches the per-frame write
step: the initial state, or any state reached by a loop iteration. -/
inductive Reachable : LoopState → Prop
  | init (display : Bool) : Reachable (initState display)
  | step (s : LoopState) (e : FrameEvent) : Reachable s → Reachable (mainStep s e)

/-- Key handling preserves the recording/writer agreement invariant. -/
theorem handleKey_inv (e : FrameEvent) (s : LoopState)
    (h : s.recording = true →
      ∃ vw : VideoWriter, s.recState.video_writer = some vw ∧ vw.isOpened = true) :
    (handleKey e s).recording = true →
      ∃ vw : VideoWriter, (handleKey e s).recState.video_writer = some vw ∧ vw.isOpened = true := by
  cases e with
  | mk dok k sok ts =>
    cases k <;> simp only [handleKey] <;> try exact h
    by_cases hrec : s.recording = false
    · rw [if_pos hrec]
      cases sok with
      | true =>
        intro _
        exact ⟨⟨"recordings/recording_" ++ ts ++ ".mp4", true⟩, rfl, rfl⟩
      | false =>
        intro hcontra
        simp [start_recording] at hcontra
    · rw [if_neg hrec]
      intro hcontra
      simp at hcontra

/-- C2: at every per-frame write step of the main loop, `recording = true`
implies a live opened `video_writer` exists: the 'r' command keeps the flag
true only when `start_recording` succeeded and reverts it otherwise, so the
flag and the handle never disagree on any reachable state. -/
theorem recording_implies_writer (s : LoopState) (hs : Reachable s)
    (hr : s.recording = true) :
    ∃ vw : VideoWriter, s.recState.video_writer = some vw ∧ vw.isOpened = true := by
  revert hr
  induction hs with
  | init display => intro hr; simp [initState] at hr
  | step s e hR ih =>
    by_cases hd : s.display_enabled
    · rw [mainStep, if_pos hd]
      apply handleKey_inv
      by_cases hdok : e.displayOk
      · simp only [if_pos hdok]
        exact ih
      · simp only [if_neg hdok]
        exact ih
    · rw [mainStep, if_neg hd]
      exact ih

/-- Loop iteration in which the operator presses 'r' and the writer opens. -/
def evR : FrameEvent := ⟨true, Key.r, true, "T"⟩

/-- Witness for C2: after pressing 'r' with a successful writer open, the
state is reachable, recording is on, and an opened writer exists. -/
theorem recording_implies_writer_witness :
    ∃ vw : VideoWriter,
      (mainStep (initState true) evR).recState.video_writer = some vw ∧ vw.isOpened = true :=
  recording_implies_writer (mainStep (initState true) evR)
    (Reachable.step (initState true) evR (Reachable.init true)) rfl

/-- Mutable handles of an `AudioRecorder` (audio_recorder.py lines 81-88):
the PortAudio stream, the output WAV path, the open WAV handle, the two
worker threads, the stop event and the PyAudio instance. -/
structure AudioState where
  stream : Option Nat
  output_path : Option String
  wave_handle : Option String
  reader_thread : Bool
  writer_thread : Bool
  stop_event : Bool
  pyaudioLive : Bool
deriving DecidableEq

/-- Environment of one `AudioRecorder.start` call: whether the PyAudio
dependency imported, the wall clock, the configured dtype, and the outcome
of `_open_stream_with_fallback`. -/
structure AudioStartEnv where
  pyaudioAvailable : Bool
  ts : String
  dtype : String
  openResult : Except Unit Nat

/-- Keys of the `_SAMPLE_WIDTH` / `_FORMAT_CODES` tables
(audio_recorder.py lines 37-51). -/
def sampleWidthKeys : List String := ["float32", "int16", "int24", "int32"]

/-- `AudioRecorder.start` (audio_recorder.py lines 91-125): missing PyAudio
raises; an already-open stream returns the existing path unchanged;
otherwise the path is generated, the dtype validated, the WAV handle opened,
the writer thread started, PyAudio created, the stream opened (failure
propagates out of `_open_stream_with_fallback`) and the reader started. -/
def audioStart (env : AudioStartEnv) (s : AudioState) :
    Except String (Option String) × AudioState :=
  if env.pyaudioAvailable = false then
    (Except.error "PyAudio is not installed", s)
  else
    match s.stream with
    | some _ => (Except.ok s.output_path, s)
    | Option.none =>
      let path := "recordings/audio/audio_capture_" ++ env.ts ++ ".wav"
      let s1 := {s with output_path := some path}
      if env.dtype ∈ sampleWidthKeys then
        let s2 : AudioState :=
          {s1 with
            wave_handle := some path
            stop_event := false
            writer_thread := true
            pyaudioLive := true}
        match env.openResult with
        | Except.error _ => (Except.error "Failed to open any audio input device", s2)
        | Except.ok hnd =>
          (Except.ok (some path), {s2 with stream := some hnd, reader_thread := true})
      else (Except.error "Unsupported dtype", s1)

/-- C4 counterexample: calling the video `start_recording` twice without a
stop is not a no-op — the second call constructs a fresh writer with a new
timestamped filename and replaces the first handle (and returns a boolean,
not the active session's path). -/
theorem start_twice_claim_false :
    (start_recording "A" true ⟨Option.none⟩).2.video_writer
        = some ⟨"recordings/recording_A.mp4", true⟩
    ∧ (start_recording "B" true (start_recording "A" true ⟨Option.none⟩).2).2.video_writer
        = some ⟨"recordings/recording_B.mp4", true⟩
    ∧ some (⟨"recordings/recording_B.mp4", true⟩ : VideoWriter)
        ≠ some (⟨"recordings/recording_A.mp4", true⟩ : VideoWriter) :=
  ⟨rfl, rfl, by decide⟩

/-- C4 (amended): `AudioRecorder.start` called again while a stream is open
is a no-op returning the already-active session's path; the video
`start_recording` has no such guard (see the counterexample) and the main
loop only avoids a double start by calling it solely on the false→true
toggle of `recording`. -/
theorem audio_start_second_noop (env : AudioStartEnv) (s : AudioState) (hnd : Nat)
    (hpy : env.pyaudioAvailable = true) (hstream : s.stream = some hnd) :
    audioStart env s = (Except.ok s.output_path, s) := by
  unfold audioStart
  rw [hpy, hstream]
  simp

/-- An idle recorder: nothing open, nothing running. -/
def audioIdle : AudioState :=
  ⟨Option.none, Option.none, Option.none, false, false, false, false⟩

/-- A recorder captured mid-session: stream 7 open, both threads running. -/
def audioActive : AudioState :=
  ⟨some 7, some "recordings/audio/audio_capture_A.wav",
    some "recordings/audio/audio_capture_A.wav", true, true, false, true⟩

/-- Environment for a second `start` call. -/
def aenv : AudioStartEnv := ⟨true, "B", "int16", Except.ok 7⟩

/-- Witness for C4 at a concrete active recorder. -/
theorem audio_start_second_noop_witness :
    audioStart aenv audioActive = (Except.ok audioActive.output_path, audioActive) :=
  audio_start_second_noop aenv audioActive 7 rfl rfl

/-- Externally visible operations a `stop` call can perform on the stream,
the threads, the queue or the WAV file. -/
inductive AudioOp
  | joinReader
  | stopStream
  | closeStream
  | terminatePyAudio
  | putSentinel
  | joinWriter
  | closeWave
deriving DecidableEq

/-- `AudioRecorder.stop` (audio_recorder.py lines 127-159): an early return
when no stream is open, otherwise set the stop event, join the reader,
stop/close the stream, terminate PyAudio, send the writer sentinel, join
the writer and close the WAV handle; alongside the final state the list of
performed operations is recorded. -/
def audioStop (s : AudioState) : Option String × AudioState × List AudioOp :=
  match s.stream with
  | Option.none => (s.output_path, s, [])
  | some _ =>
    let ops1 : List AudioOp := if s.reader_thread then [AudioOp.joinReader] else []
    let s1 := {s with stop_event := true, reader_thread := false}
    let ops2 := ops1 ++ [AudioOp.stopStream, AudioOp.closeStream]
    let s2 := {s1 with stream := Option.none}
    let ops3 := ops2 ++ (if s.pyaudioLive then [AudioOp.terminatePyAudio] else [])
    let s3 := {s2 with pyaudioLive := false}
    let ops4 := ops3 ++ [AudioOp.putSentinel]
        ++ (if s.writer_thread then [AudioOp.joinWriter] else [])
    let s4 := {s3 with writer_thread := false}
    let ops5 := ops4 ++ (if s.wave_handle.isSome then [AudioOp.closeWave] else [])
    let s5 := {s4 with wave_handle := Option.none}
    (s.output_path, s5, ops5)

/-- Stop on an idle recorder returns the stored path and does nothing. -/
theorem audioStop_idle (s : AudioState) (h : s.stream = Option.none) :
    audioStop s = (s.output_path, s, []) := by
  unfold audioStop
  rw [h]

/-- Every stop leaves the stream handle cleared. -/
theorem audioStop_clears_stream (s : AudioState) :
    (audioStop s).2.1.stream = Option.none := by
  rcases hs : s.stream with _ | v <;> simp [audioStop, hs]

/-- C9: all stop paths are idempotent and safe on idle resources: the video
`stop_recording` with no live writer is a no-op returning None; an
`AudioRecorder.stop` with no open stream (never started, or already
stopped) performs no stream/thread/file operation and leaves every handle
unchanged; and a second `stop` right after any `stop` is such a no-op. -/
theorem stop_idempotent :
    (∀ rs : RecState, rs.video_writer = Option.none → stop_recording rs = (Option.none, rs))
    ∧ (∀ s : AudioState, s.stream = Option.none → audioStop s = (s.output_path, s, []))
    ∧ (∀ s : AudioState,
        audioStop (audioStop s).2.1
          = ((audioStop s).2.1.output_path, (audioStop s).2.1, [])) := by
  refine ⟨?_, fun s h => audioStop_idle s h, fun s => audioStop_idle _ (audioStop_clears_stream s)⟩
  intro rs h
  unfold stop_recording
  rw [h]

/-- Witness for C9 at an idle writer, an idle recorder, and a double stop
of an active recorder. -/
theorem stop_idempotent_witness :
    stop_recording ⟨Option.none⟩ = (Option.none, (⟨Option.none⟩ : RecState))
    ∧ audioStop audioIdle = (audioIdle.output_path, audioIdle, [])
    ∧ audioStop (audioStop audioActive).2.1
        = ((audioStop audioActive).2.1.output_path, (audioStop audioActive).2.1, []) :=
  ⟨stop_idempotent.1 ⟨Option.none⟩ rfl, stop_idempotent.2.1 audioIdle rfl,
    stop_idempotent.2.2 audioActive⟩

/-- Python `str.rstrip('/')`: drop all trailing slashes. -/
def rstripSlashes (s : String) : String :=
  String.mk ((s.data.reverse.dropWhile (fun c => c == '/')).reverse)

/-- Outcome of one `requests.post` call: an exception (connection error,
timeout, ...) or a response with an HTTP status code. -/
inductive HttpAttempt
  | exn
  | resp (status : Nat)
deriving DecidableEq

/-- Environment of `send_frame_to_backend`: the `BACKEND_URL` variable
(None when unset), the base64 JPEG produced by `cv2.imencode` at quality 80
plus `b64encode` (None when encoding raises), and the HTTP stack as a
function of (url, image field, timeout seconds). -/
structure RelayEnv where
  backend_url : Option String
  encoded : Option String
  http : String → String → ℚ → HttpAttempt

/-- `requests.Response.ok`: true exactly when the status code is below 400
(so 2xx AND 3xx count as success). -/
def resp_ok (status : Nat) : Bool := decide (status < 400)

/-- `send_frame_to_backend` (pcd_main.py lines 239-252): missing or empty
`BACKEND_URL` returns False; any exception inside the try block (encoding,
connection, timeout) is caught and returns False; otherwise the frame is
POSTed as the JSON field `image` to `<url>/upload_frame` with timeout 2.0
and the result is `resp.ok`. -/
def send_frame_to_backend (env : RelayEnv) : Bool :=
  match env.backend_url with
  | Option.none => false
  | some u =>
    if u = "" then false
    else
      match env.encoded with
      | Option.none => false
      | some b64 =>
        match env.http (rstripSlashes u ++ "/upload_frame") b64 2 with
        | HttpAttempt.exn => false
        | HttpAttempt.resp st => resp_ok st

/-- C3 (amended): the relay send never raises (it is a total boolean
function of its environment); it returns false on missing/empty endpoint,
encode failure, or any transport exception, and it returns true exactly
when the POST of the base64 JPEG to `<url>/upload_frame` received a
response with status below 400 (any 2xx or 3xx), which is what
`requests.Response.ok` tests. -/
theorem relay_send_spec (env : RelayEnv) :
    send_frame_to_backend env = true ↔
      ∃ u b64 st, env.backend_url = some u ∧ u ≠ ""
        ∧ env.encoded = some b64
        ∧ env.http (rstripSlashes u ++ "/upload_frame") b64 2 = HttpAttempt.resp st
        ∧ st < 400 := by
  unfold send_frame_to_backend resp_ok
  rcases hu : env.backend_url with _ | u
  · simp
  · dsimp only
    by_cases hu0 : u = ""
    · simp [hu0]
    · rw [if_neg hu0]
      rcases he : env.encoded with _ | b64
      · simp [hu0]
      · dsimp only
        rcases hh : env.http (rstripSlashes u ++ "/upload_frame") b64 2 with _ | st
        · simp [hu0, hh]
        · simp [hu0, hh]

/-- Environment in which the endpoint answers 301 Moved Permanently. -/
def relayEnv301 : RelayEnv :=
  ⟨some "http://127.0.0.1:5000", some "QUJD", fun _ _ _ => HttpAttempt.resp 301⟩

/-- C3 counterexample: a 301 response is not a 2xx response, yet the send
reports success, because `resp.ok` accepts every status below 400. -/
theorem relay_2xx_claim_false :
    send_frame_to_backend relayEnv301 = true
    ∧ relayEnv301.http (rstripSlashes "http://127.0.0.1:5000" ++ "/upload_frame") "QUJD" 2
        = HttpAttempt.resp 301
    ∧ ¬ (200 ≤ 301 ∧ 301 < 300) :=
  ⟨rfl, rfl, by omega⟩

/-- One entry of PyAudio's device enumeration: the fields
`_candidate_device_indices` reads. -/
structure DeviceInfo where
  name : String
  maxInputChannels : Nat
deriving DecidableEq

/-- PortAudio as seen by the recorder: the enumerated devices, the default
input index (None when `get_default_input_device_info` raises), and which
`open` calls succeed (the index None is the let-PortAudio-decide fallback). -/
structure AudioDeviceEnv where
  devices : List DeviceInfo
  defaultInputIndex : Option Nat
  openOk : Option Nat → Bool

/-- Lowercase a character sequence (Python `str.lower`). -/
def lowerChars (l : List Char) : List Char := l.map Char.toLower

/-- Boolean prefix test on character sequences. -/
def isPrefixChars : List Char → List Char → Bool
  | [], _ => true
  | _ :: _, [] => false
  | a :: as, b :: bs => a == b && isPrefixChars as bs

/-- Boolean contiguous-substring test on character sequences. -/
def isInfixChars (sub : List Char) : List Char → Bool
  | [] => isPrefixChars sub []
  | b :: bs => isPrefixChars sub (b :: bs) || isInfixChars sub bs

/-- Python `keyword.lower() in name.lower()` (substring test). -/
def containsLower (name keyword : String) : Bool :=
  isInfixChars (lowerChars keyword.data) (lowerChars name.data)

/-- `AudioRecorder._match_device_name` (audio_recorder.py lines 270-280):
indices of input-capable devices whose lowercased name contains the
lowercased keyword, in enumeration order. -/
def matchDeviceName (env : AudioDeviceEnv) (keyword : String) : List Nat :=
  (List.range env.devices.length).filter (fun idx =>
    containsLower (env.devices.getD idx ⟨"", 0⟩).name keyword
      && decide (0 < (env.devices.getD idx ⟨"", 0⟩).maxInputChannels))

/-- The `_append` helper inside `_candidate_device_indices`: append unless
already present. -/
def appendUnique (cs : List (Option Nat)) (idx : Option Nat) : List (Option Nat) :=
  if idx ∈ cs then cs else cs ++ [idx]

/-- First enumerated device exposing input channels
(audio_recorder.py lines 261-265). -/
def firstInputDevice (env : AudioDeviceEnv) : Option Nat :=
  (List.range env.devices.length).find? (fun idx =>
    decide (0 < (env.devices.getD idx ⟨"", 0⟩).maxInputChannels))

/-- `AudioRecorder._candidate_device_indices` (audio_recorder.py lines
228-268): name matches of a string request (a warning is printed and
nothing is appended when there are none), or a requested integer index;
then the default input, the 'pulse' and 'default' virtual devices, the
first input-capable device and finally None. -/
def candidateDeviceIndices (env : AudioDeviceEnv) (requested : Option (Nat ⊕ String)) :
    List (Option Nat) :=
  let c1 : List (Option Nat) :=
    match requested with
    | some (Sum.inr s) =>
      (matchDeviceName env s).foldl (fun cs i => appendUnique cs (some i)) []
    | some (Sum.inl i) => appendUnique [] (some i)
    | Option.none => []
  let c2 :=
    match env.defaultInputIndex with
    | some d => appendUnique c1 (some d)
    | Option.none => c1
  let c3 := (matchDeviceName env "pulse").foldl (fun cs i => appendUnique cs (some i)) c2
  let c4 := (matchDeviceName env "default").foldl (fun cs i => appendUnique cs (some i)) c3
  let c5 :=
    match firstInputDevice env with
    | some i => appendUnique c4 (some i)
    | Option.none => c4
  appendUnique c5 Option.none

/-- Open loop of `AudioRecorder._open_stream_with_fallback`
(audio_recorder.py lines 205-226): try each candidate in order, return the
first that opens, raise only when the whole list is exhausted. -/
def tryCandidates (env : AudioDeviceEnv) : List (Option Nat) → Except Unit (Option Nat)
  | [] => Except.error ()
  | idx :: rest => if env.openOk idx then Except.ok idx else tryCandidates env rest

/-- `AudioRecorder._open_stream_with_fallback` over the resolved candidate
list. -/
def openStreamWithFallback (env : AudioDeviceEnv) (requested : Option (Nat ⊕ String)) :
    Except Unit (Option Nat) :=
  tryCandidates env (candidateDeviceIndices env requested)

/-- The open loop raises exactly when every candidate fails to open. -/
theorem tryCandidates_error_iff (env : AudioDeviceEnv) (cs : List (Option Nat)) :
    tryCandidates env cs = Except.error () ↔ ∀ c ∈ cs, env.openOk c = false := by
  induction cs with
  | nil => simp [tryCandidates]
  | cons c rest ih =>
    by_cases hc : env.openOk c
    · simp [tryCandidates, hc]
    · simp only [Bool.not_eq_true] at hc
      simp [tryCandidates, hc, ih]

/-- C6: a requested device name that matches no input-capable device
contributes no candidate: resolution does not raise, the candidate list is
exactly the fallthrough chain (platform default, 'pulse'/'default' virtual
devices, first input-capable device, PortAudio default), and the open step
raises only after every candidate in that list failed to open. -/
theorem audio_device_fallback (env : AudioDeviceEnv) (requested : String)
    (hmiss : matchDeviceName env requested = []) :
    candidateDeviceIndices env (some (Sum.inr requested))
        = candidateDeviceIndices env Option.none
    ∧ (openStreamWithFallback env (some (Sum.inr requested)) = Except.error () ↔
        ∀ c ∈ candidateDeviceIndices env (some (Sum.inr requested)),
          env.openOk c = false) := by
  constructor
  · unfold candidateDeviceIndices
    dsimp only
    rw [hmiss]
    rfl
  · rw [openStreamWithFallback]
    exact tryCandidates_error_iff env _

/-- A machine with one analog input, one output-only HDMI device, and the
pulse/default virtual devices; no device opens. -/
def devEnv : AudioDeviceEnv :=
  ⟨[⟨"HDA Intel PCH: ALC287 Analog", 2⟩, ⟨"HDMI 0", 0⟩, ⟨"pulse", 32⟩, ⟨"default", 32⟩],
    some 2, fun _ => false⟩

/-- Witness for C6 with the unmatched request `usb webcam mic`. -/
theorem audio_device_fallback_witness :
    candidateDeviceIndices devEnv (some (Sum.inr "usb webcam mic"))
        = candidateDeviceIndices devEnv Option.none
    ∧ (openStreamWithFallback devEnv (some (Sum.inr "usb webcam mic")) = Except.error () ↔
        ∀ c ∈ candidateDeviceIndices devEnv (some (Sum.inr "usb webcam mic")),
          devEnv.openOk c = false) :=
  audio_device_fallback devEnv "usb webcam mic" (by decide)

/-- External collaborators of `process_frame_base64` and the detector:
`base64.b64decode` (raises on bad input), `cv2.imdecode` (None on undecodable
bytes), `net.forward` per frame, `cv2.GaussianBlur`, `cv2.imencode` (may
raise) and `base64.b64encode`. -/
structure PFEnv where
  b64decode : String → Except Unit (List Nat)
  imdecode : List Nat → Option Image
  detections : Image → List Detection
  gblur : Int → Int → ℚ → Image → Image
  imencode : Image → Except Unit (List Nat)
  b64encode : List Nat → String

/-- Per-detection body of `process_frame_base64` (pcd_main.py lines
448-460) after clamping: validity check, fixed `GaussianBlur(face, (51,51),
30)`, write-back. -/
def pfFaceStep (gblur : Int → Int → ℚ → Image → Image) (img : Image)
    (sx sy ex ey : Nat) : Image :=
  if 0 < (ey - sy) * (ex - sx) then
    writeSub img sx sy (gblur 51 51 30 (subImage img sx sy ex ey))
  else img

/-- One above-threshold detection in `process_frame_base64`: clamp with
`max 0` / `min w`, resolve the slices, blur and write back. -/
def pfProcessDet (gblur : Int → Int → ℚ → Image → Image) (img : Image)
    (d : Detection) : Image :=
  pfFaceStep gblur img
    (pyIdx img.w (max 0 d.x1)) (pyIdx img.h (max 0 d.y1))
    (pyIdx img.w (min (img.w : Int) d.x2)) (pyIdx img.h (min (img.h : Int) d.y2))

/-- Detection loop of `process_frame_base64` (pcd_main.py lines 444-460). -/
def pfDetLoop (gblur : Int → Int → ℚ → Image → Image) (dets : List Detection)
    (img : Image) : Image :=
  dets.foldl
    (fun f d => if confidence_threshold < d.conf then pfProcessDet gblur f d else f) img

/-- `process_frame_base64` (pcd_main.py lines 414-469): decode, bail out
with the input on a None frame, detect and blur, re-encode; the enclosing
try/except returns the original input string on any raised step. -/
def process_frame_base64 (env : PFEnv) (img_b64 : String) : String :=
  match env.b64decode img_b64 with
  | Except.error _ => img_b64
  | Except.ok bytes =>
    match env.imdecode bytes with
    | Option.none => img_b64
    | some frame =>
      match env.imencode (pfDetLoop env.gblur (env.detections frame) frame) with
      | Except.error _ => img_b64
      | Except.ok buf => env.b64encode buf

/-- The `/upload_frame` handler (app.py lines 64-88) for a request whose
JSON `image` field is `imageField`: a missing field is a 400 with no
broadcast; otherwise the processed frame is broadcast and a 200 returned. -/
def upload_frame (env : PFEnv) (imageField : Option String) : Nat × Option String :=
  match imageField with
  | Option.none => (400, Option.none)
  | some s => (200, some (process_frame_base64 env s))

/-- C10: `process_frame_base64` is total (never raises) and returns the
input unchanged whenever decoding fails, the bytes are not an image, or
re-encoding fails; in every case its result is either the unmodified input
or the re-encoded blurred frame, and the `/upload_frame` endpoint
broadcasts exactly that result. -/
theorem process_frame_total (env : PFEnv) (s : String) :
    ((∀ e, env.b64decode s = Except.error e → process_frame_base64 env s = s)
    ∧ (∀ bytes, env.b64decode s = Except.ok bytes → env.imdecode bytes = Option.none →
        process_frame_base64 env s = s)
    ∧ (process_frame_base64 env s = s
        ∨ ∃ bytes frame buf,
            env.b64decode s = Except.ok bytes
            ∧ env.imdecode bytes = some frame
            ∧ env.imencode (pfDetLoop env.gblur (env.detections frame) frame) = Except.ok buf
            ∧ process_frame_base64 env s = env.b64encode buf))
    ∧ upload_frame env (some s) = (200, some (process_frame_base64 env s)) := by
  refine ⟨⟨?_, ?_, ?_⟩, rfl⟩
  · intro e he
    unfold process_frame_base64
    rw [he]
  · intro bytes hb hi
    unfold process_frame_base64
    rw [hb]
    dsimp only
    rw [hi]
  · rcases hb : env.b64decode s with e | bytes
    · left
      unfold process_frame_base64
      rw [hb]
    · rcases hi : env.imdecode bytes with _ | frame
      · left
        unfold process_frame_base64
        rw [hb]
        dsimp only
        rw [hi]
      · rcases he : env.imencode (pfDetLoop env.gblur (env.detections frame) frame)
          with e2 | buf
        · left
          unfold process_frame_base64
          rw [hb]
          dsimp only
          rw [hi]
          dsimp only
          rw [he]
        · right
          refine ⟨bytes, frame, buf, rfl, hi, he, ?_⟩
          unfold process_frame_base64
          rw [hb]
          dsimp only
          rw [hi]
          dsimp only
          rw [he]

/-- Environment in which base64 decoding always raises. -/
def pfEnvFail : PFEnv :=
  ⟨fun _ => Except.error (), fun _ => Option.none, fun _ => [], gblurProbe,
    fun _ => Except.error (), fun _ => ""⟩

/-- Witness for C10: an undecodable input comes back unchanged and is what
the endpoint broadcasts. -/
theorem process_frame_total_witness :
    process_frame_base64 pfEnvFail "@@@" = "@@@"
    ∧ upload_frame pfEnvFail (some "@@@")
        = (200, some (process_frame_base64 pfEnvFail "@@@")) :=
  ⟨(process_frame_total pfEnvFail "@@@").1.1 () rfl,
    (process_frame_total pfEnvFail "@@@").2⟩
